import Mathlib

/-!
Shallow embedding of the Cloud Event Monitor core (event_monitor.py):
register parsing and the live retry loop of the sensor reader, the
sampling worker temp_worker, the event builder, the spool writer and the
publisher worker.  Machine floats are modelled as exact rationals; the
random draws, the queue contents and the flag values observed by the
workers are passed in explicitly as inputs, one record per loop cycle.
-/

namespace EventMonitor

/-- Default device identifier (event_monitor.py line 30). -/
def DEVICE_ID_DEFAULT : String := "dev-windows"

/-- Simulated-walk seed (line 32). -/
def BASE_TEMP_C : ℚ := 22

/-- Bound of the random per-cycle delta (line 33). -/
def MAX_VARIATION_C : ℚ := 5

/-- Raw contents of one read of the w1_slave register: the validity line
and the temperature line, as returned by read_temp_raw_live (lines 74-77). -/
structure RawRead where
  validLine : List Char
  tempLine : List Char
deriving DecidableEq

/-- Whether pat occurs as a contiguous prefix of s. -/
def startsWith : List Char → List Char → Bool
  | [], _ => true
  | _ :: _, [] => false
  | p :: ps, c :: cs => p == c && startsWith ps cs

/-- Whether pat occurs as a contiguous substring of s, as the Python
in-operator tests on strings. -/
def containsSub (pat : List Char) : List Char → Bool
  | [] => pat.isEmpty
  | c :: rest => startsWith pat (c :: rest) || containsSub pat rest

/-- Test for the YES validity marker in the first register line (line 82). -/
def containsYes (s : List Char) : Bool :=
  containsSub ('Y' :: 'E' :: 'S' :: []) s

/-- Everything after the first occurrence of the marker t= in the second
register line; none when the marker is absent, in which case Python's
str.index raises ValueError (lines 86-87). -/
def afterTMarker : List Char → Option (List Char)
  | [] => none
  | 't' :: '=' :: tail => some tail
  | _ :: rest => afterTMarker rest

/-- Whitespace stripped from both ends, as Python float does before
converting. -/
def trimWs (s : List Char) : List Char :=
  ((s.dropWhile Char.isWhitespace).reverse.dropWhile Char.isWhitespace).reverse

def parseNatDigits (ds : List Char) : Option Nat :=
  if ds = [] then none
  else if ds.all Char.isDigit then
    some (ds.foldl (fun a c => a * 10 + (c.toNat - 48)) 0)
  else none

/-- Number parse of the text after the marker (line 88).  The register
payload is an integer millidegree count, possibly signed; any other text
makes Python's float conversion raise. -/
def parseMilli (s : List Char) : Option ℤ :=
  match trimWs s with
  | '-' :: ds => (parseNatDigits ds).map (fun n => -(n : ℤ))
  | ds => (parseNatDigits ds).map (fun n => (n : ℤ))

/-- Result of read_temp_live on a finite trace of register reads. -/
inductive LiveReadResult
  | ok (temp_c temp_f : ℚ) (retries : Nat)
  | parseError
  | stillRetrying (retries : Nat)
deriving DecidableEq

/-- Model of read_temp_live (lines 80-91): one initial read, then a
re-read after a fixed 0.2 s backoff while the validity marker is absent;
on a valid line, parse the millidegrees after t= and convert.  The trace
lists the successive register reads; stillRetrying means the trace ended
with the loop still waiting for a valid line.  The retries count is the
number of re-reads performed after the initial one. -/
def readTempLive : List RawRead → Nat → LiveReadResult
  | [], retries => .stillRetrying retries
  | r :: rest, retries =>
    if containsYes r.validLine then
      match afterTMarker r.tempLine with
      | none => .parseError
      | some s =>
        match parseMilli s with
        | none => .parseError
        | some m => .ok ((m : ℚ) / 1000) ((m : ℚ) / 1000 * (9 / 5) + 32) retries
    else
      readTempLive rest (retries + 1)

/-- Exit value of read_temp_live once a line with the validity marker has
been read: the parsed sample, or an exception raised by the t= search or
by the float conversion. -/
inductive LiveExit
  | sample (temp_c temp_f : ℚ)
  | raised
deriving DecidableEq

def liveExitOf (r : RawRead) : LiveExit :=
  match afterTMarker r.tempLine with
  | none => .raised
  | some s =>
    match parseMilli s with
    | none => .raised
    | some m => .sample ((m : ℚ) / 1000) ((m : ℚ) / 1000 * (9 / 5) + 32)

/-- Model of read_temp_live over an unbounded stream of register reads,
unrolled for fuel retries: none means the retry loop is still running
after that many re-reads.  The loop body consults no stop signal,
matching the source, which gives read_temp_live no access to the running
event. -/
def readTempLiveStream (readAt : Nat → RawRead) : Nat → Nat → Option LiveExit
  | i, 0 => if containsYes (readAt i).validLine then some (liveExitOf (readAt i)) else none
  | i, fuel + 1 =>
    if containsYes (readAt i).validLine then some (liveExitOf (readAt i))
    else readTempLiveStream readAt (i + 1) fuel

/-- Messages put on the UI output queue (tagged tuples in the source). -/
inductive Notification
  | temp (temp_c temp_f : ℚ)
  | status (text : String)
  | forceSim (text : String)
deriving DecidableEq

def isForceSim : Notification → Bool
  | .forceSim _ => true
  | _ => false

/-- Event payload built by build_event_payload (lines 94-104).  The uuid
and the timestamp are opaque identity metadata never inspected by the
pipeline; the uuid is modelled as a number supplied by the cycle and the
timestamp is omitted. -/
structure Event where
  message_id : Nat
  device_id : String
  mode : String
  temp_c : ℚ
  temp_f : ℚ
  sequence : Nat
  event_type : String
deriving DecidableEq

def build_event_payload (msgId : Nat) (device_id mode : String)
    (temp_c temp_f : ℚ) (sequence : Nat) : Event :=
  ⟨msgId, device_id, mode, temp_c, temp_f, sequence, "TEMP_READING"⟩

/-- Mutable locals of temp_worker (lines 190-192). -/
structure TempState where
  current_temp_c : ℚ
  last_mode : Option Bool
  sequence : Nat
deriving DecidableEq

def TempState.init : TempState := ⟨BASE_TEMP_C, none, 0⟩

/-- Data one cycle of temp_worker draws from its environment: the sim
flag read at the top of the cycle, the random delta, the DS18B20 init
outcome and the register reads consumed if the live path runs, and the
fresh uuid for the event. -/
structure CycleInput where
  simSelected : Bool
  delta : ℚ
  initOk : Bool
  liveReads : List RawRead
  msgId : Nat
deriving DecidableEq

inductive CycleOut
  | step (st : TempState) (notifs : List Notification) (ev : Option Event)
  | blocked (notifs : List Notification)
deriving DecidableEq

/-- One iteration of the temp_worker while-body (lines 194-240), with
osNt the value of the os.name test for Windows.  blocked is the case in
which read_temp_live never returns within its trace of reads. -/
def tempCycle (osNt : Bool) (rom : Option String) (st : TempState) (inp : CycleInput) : CycleOut :=
  let forced := osNt && !inp.simSelected
  let forceNotifs : List Notification :=
    if forced then [.forceSim "Live mode is not supported on Windows; switched to Simulated"]
    else []
  let sim_mode := inp.simSelected || forced
  let modeNotifs : List Notification :=
    if st.last_mode ≠ some sim_mode then
      [.status (if sim_mode then "Simulated mode active" else "Live mode active")]
    else []
  let st1 : TempState := { st with last_mode := some sim_mode }
  if sim_mode then
    let c := max 10 (min 40 (st1.current_temp_c + inp.delta))
    let f := c * (9 / 5) + 32
    .step { st1 with current_temp_c := c, sequence := st1.sequence + 1 }
      (forceNotifs ++ modeNotifs ++ [.temp c f])
      (some (build_event_payload inp.msgId DEVICE_ID_DEFAULT "sim" c f (st1.sequence + 1)))
  else if !inp.initOk then
    .step st1 (forceNotifs ++ modeNotifs ++ [.status "Live mode: DS18B20 not available"]) none
  else
    match readTempLive inp.liveReads 0 with
    | .stillRetrying _ => .blocked (forceNotifs ++ modeNotifs)
    | .parseError => .step st1 (forceNotifs ++ modeNotifs ++ [.status "Temp read error"]) none
    | .ok c f _ =>
      .step { st1 with sequence := st1.sequence + 1 }
        (forceNotifs ++ modeNotifs ++ [.temp c f])
        (some (build_event_payload inp.msgId (rom.getD DEVICE_ID_DEFAULT) "live" c f (st1.sequence + 1)))

structure RunOut where
  state : TempState
  notifs : List Notification
  events : List Event
deriving DecidableEq

/-- Run of temp_worker over successive cycles; a blocked cycle ends the
run with nothing further produced, since the thread is stuck inside
read_temp_live. -/
def tempRun (osNt : Bool) (rom : Option String) : TempState → List CycleInput → RunOut
  | st, [] => ⟨st, [], []⟩
  | st, inp :: rest =>
    match tempCycle osNt rom st inp with
    | .blocked ns => ⟨st, ns, []⟩
    | .step st' ns oe =>
      let r := tempRun osNt rom st' rest
      ⟨r.state, ns ++ r.notifs, oe.toList ++ r.events⟩

/-- Publisher worker locals fixed at thread start (lines 126-140). -/
structure PubState where
  fallback_spool_only : Bool
  fallback_status_sent : Bool
deriving DecidableEq

/-- Client construction at the top of publisher_worker (lines 132-140):
permanent spool-only fallback when the pubsub library is absent, or when
the client construction raises. -/
def pubInit (libPresent ctorOk : Bool) : PubState :=
  if !libPresent then ⟨true, false⟩
  else if ctorOk then ⟨false, false⟩
  else ⟨true, false⟩

inductive Outcome
  | delivered
  | spooled
deriving DecidableEq

/-- Environment of one dequeued event: the publish_enabled flag read at
that moment, whether the publish future resolves successfully within the
timeout, and whether the spool append would succeed. -/
structure DeliveryInput where
  publishEnabled : Bool
  publishOk : Bool
  writeOk : Bool
  ev : Event
deriving DecidableEq

/-- spool_event (lines 107-112): one append attempt; an exception is
caught and logged, nothing is re-raised and no message is put on the
output queue.  Returns the log lines written. -/
def spool_event (writeOk : Bool) : List String :=
  if writeOk then [] else ["Failed writing spool file"]

structure DeliveryStep where
  state : PubState
  outcome : Outcome
  notifs : List Notification
  attempts : Nat
  logs : List String
deriving DecidableEq

/-- Body of the publisher_worker loop for one dequeued event
(lines 142-186).  attempts counts calls of publisher.publish. -/
def processDelivery (st : PubState) (inp : DeliveryInput) : DeliveryStep :=
  if st.fallback_spool_only then
    { state := ⟨true, true⟩
      outcome := .spooled
      notifs := if st.fallback_status_sent then [] else [.status "Pub/Sub unavailable: spooling enabled"]
      attempts := 0
      logs := spool_event inp.writeOk }
  else if !inp.publishEnabled then
    { state := st
      outcome := .spooled
      notifs := [.status "Publish disabled: event spooled"]
      attempts := 0
      logs := spool_event inp.writeOk ++ ["Publish disabled; spooled"] }
  else if inp.publishOk then
    { state := st
      outcome := .delivered
      notifs := [.status ("Published event " ++ toString inp.ev.sequence)]
      attempts := 1
      logs := ["Published"] }
  else
    { state := st
      outcome := .spooled
      notifs := [.status "Publish failed: event spooled"]
      attempts := 1
      logs := spool_event inp.writeOk ++ ["Publish failed"] }

structure RunDelivery where
  state : PubState
  outcomes : List Outcome
  notifs : List Notification
  attempts : Nat
deriving DecidableEq

/-- Drain loop of publisher_worker (line 142): the loop keeps taking
items while the running flag is set or the queue is non-empty, so with
the stop signal set it still processes every item queued at that moment;
inputs lists every event taken off the queue, in order. -/
def publisherRun (st : PubState) : List DeliveryInput → RunDelivery
  | [] => ⟨st, [], [], 0⟩
  | inp :: rest =>
    let s := processDelivery st inp
    let r := publisherRun s.state rest
    ⟨r.state, s.outcome :: r.outcomes, s.notifs ++ r.notifs, s.attempts + r.attempts⟩

/-- Occurrence count of one outcome in a list of outcomes. -/
def countOutcome (o : Outcome) : List Outcome → Nat
  | [] => 0
  | x :: rest => (if x = o then 1 else 0) + countOutcome o rest

/-- Occurrence count of one message in a list of notifications. -/
def countNotif (n : Notification) : List Notification → Nat
  | [] => 0
  | x :: rest => (if x = n then 1 else 0) + countNotif n rest

/-- Occurrence count of one line in a list of log lines. -/
def countLog (s : String) : List String → Nat
  | [] => 0
  | x :: rest => (if x = s then 1 else 0) + countLog s rest

/-- Consecutive numbers s, s+1, ..., s+n-1. -/
def seqFrom : Nat → Nat → List Nat
  | _, 0 => []
  | s, n + 1 => s :: seqFrom (s + 1) n

/-- Fahrenheit conversion exactly as the specification text writes it. -/
def fahrenheit_spec (temp_c : ℚ) : ℚ := temp_c * 9 / 5 + 32

/-- Register read with a valid marker line and payload t=21500. -/
def validSensorRead : RawRead :=
  ⟨("50 05 4b 46 7f ff 0c 10 1c : crc=1c YES").toList,
   ("50 05 4b 46 7f ff 0c 10 1c t=21500").toList⟩

/-- Register read whose first line lacks the validity marker. -/
def neverValidRead : RawRead :=
  ⟨("50 05 4b 46 7f ff 0c 10 1c : crc=1c NO").toList,
   ("50 05 4b 46 7f ff 0c 10 1c t=21500").toList⟩

def evA : Event := build_event_payload 1 DEVICE_ID_DEFAULT "sim" 22 (358 / 5) 1

def evB : Event := build_event_payload 2 DEVICE_ID_DEFAULT "sim" 23 (367 / 5) 2

def dInDisabledA : DeliveryInput := ⟨false, true, true, evA⟩

def dInDisabledB : DeliveryInput := ⟨false, true, true, evB⟩

def dInFailedWrite : DeliveryInput := ⟨true, false, false, evA⟩

def dInFailedWriteOkWrite : DeliveryInput := ⟨true, false, true, evA⟩

def dInSpoolOnly : DeliveryInput := ⟨true, true, true, evA⟩

theorem countNotif_append (n : Notification) (a b : List Notification) :
    countNotif n (a ++ b) = countNotif n a + countNotif n b := by
  induction a with
  | nil => simp [countNotif]
  | cons x rest ih => simp [countNotif, ih]; omega

theorem publisherRun_length : ∀ (inputs : List DeliveryInput) (st : PubState),
    (publisherRun st inputs).outcomes.length = inputs.length := by
  intro inputs
  induction inputs with
  | nil => intro st; rfl
  | cons inp rest ih => intro st; simp [publisherRun, ih]

theorem publisherRun_partition : ∀ (inputs : List DeliveryInput) (st : PubState),
    countOutcome .delivered (publisherRun st inputs).outcomes +
      countOutcome .spooled (publisherRun st inputs).outcomes = inputs.length := by
  intro inputs
  induction inputs with
  | nil => intro st; rfl
  | cons inp rest ih =>
    intro st
    have h := ih (processDelivery st inp).state
    rcases ho : (processDelivery st inp).outcome <;>
      simp [publisherRun, countOutcome, ho] <;> omega

/-- C1: every event taken off the delivery queue in one run of the
publisher worker, the items still queued when the stop signal was set
included (the loop condition keeps draining while the queue is
non-empty), receives exactly one terminal outcome: the outcome trace has
exactly one entry per dequeued event, and the delivered and spooled
counts together account for all of them, so no event gets both outcomes
and none gets neither. -/
theorem c1_exactly_one_outcome (st : PubState) (pre post : List DeliveryInput) :
    (publisherRun st (pre ++ post)).outcomes.length = pre.length + post.length ∧
    countOutcome .delivered (publisherRun st (pre ++ post)).outcomes +
      countOutcome .spooled (publisherRun st (pre ++ post)).outcomes =
      pre.length + post.length := by
  constructor
  · rw [publisherRun_length, List.length_append]
  · rw [publisherRun_partition, List.length_append]

theorem publisherRun_fallback : ∀ (inputs : List DeliveryInput) (st : PubState),
    st.fallback_spool_only = true →
    countOutcome .delivered (publisherRun st inputs).outcomes = 0 ∧
    (publisherRun st inputs).attempts = 0 ∧
    countNotif (.status "Pub/Sub unavailable: spooling enabled") (publisherRun st inputs).notifs =
      (if st.fallback_status_sent then 0 else min 1 inputs.length) := by
  intro inputs
  induction inputs with
  | nil =>
    intro st h
    simp [publisherRun, countOutcome, countNotif]
  | cons inp rest ih =>
    intro st h
    have hstep : processDelivery st inp =
        { state := ⟨true, true⟩, outcome := .spooled,
          notifs := if st.fallback_status_sent then []
            else [.status "Pub/Sub unavailable: spooling enabled"],
          attempts := 0, logs := spool_event inp.writeOk } := by
      simp [processDelivery, h]
    obtain ⟨ih1, ih2, ih3⟩ := ih ⟨true, true⟩ rfl
    simp only [publisherRun, hstep] at *
    refine ⟨by simpa [countOutcome] using ih1, by simpa using ih2, ?_⟩
    rw [countNotif_append, ih3]
    rcases hs : st.fallback_status_sent <;> simp [countNotif]

theorem pubInit_not_sent (libPresent ctorOk : Bool) :
    (pubInit libPresent ctorOk).fallback_status_sent = false := by
  cases libPresent <;> cases ctorOk <;> rfl

/-- C3: when the publisher worker falls into the permanent spool-only
state at construction, because the messaging library is absent or the
client construction raised, every event subsequently taken off the
delivery queue is spooled, no publish call is ever attempted, and the
unavailability status notification goes out exactly once over the whole
run. -/
theorem c3_disabled_all_spooled (libPresent ctorOk : Bool) (inputs : List DeliveryInput)
    (h : libPresent = false ∨ ctorOk = false) (hne : inputs ≠ []) :
    countOutcome .delivered (publisherRun (pubInit libPresent ctorOk) inputs).outcomes = 0 ∧
    countOutcome .spooled (publisherRun (pubInit libPresent ctorOk) inputs).outcomes =
      inputs.length ∧
    (publisherRun (pubInit libPresent ctorOk) inputs).attempts = 0 ∧
    countNotif (.status "Pub/Sub unavailable: spooling enabled")
      (publisherRun (pubInit libPresent ctorOk) inputs).notifs = 1 := by
  have hf : (pubInit libPresent ctorOk).fallback_spool_only = true := by
    rcases h with h | h <;> subst h
    · rfl
    · cases libPresent <;> rfl
  obtain ⟨h1, h2, h3⟩ := publisherRun_fallback inputs _ hf
  have hpart := publisherRun_partition inputs (pubInit libPresent ctorOk)
  have hlen := publisherRun_length inputs (pubInit libPresent ctorOk)
  refine ⟨h1, by omega, h2, ?_⟩
  rw [h3, pubInit_not_sent]
  rcases inputs with _ | ⟨a, rest⟩
  · exact absurd rfl hne
  · simp

/-- Witness for C3 at a concrete run: library absent, one queued event. -/
theorem c3_witness :
    ((false = false ∨ true = false) ∧ [dInSpoolOnly] ≠ ([] : List DeliveryInput)) ∧
    (countOutcome .delivered (publisherRun (pubInit false true) [dInSpoolOnly]).outcomes = 0 ∧
     countOutcome .spooled (publisherRun (pubInit false true) [dInSpoolOnly]).outcomes =
       [dInSpoolOnly].length ∧
     (publisherRun (pubInit false true) [dInSpoolOnly]).attempts = 0 ∧
     countNotif (.status "Pub/Sub unavailable: spooling enabled")
       (publisherRun (pubInit false true) [dInSpoolOnly]).notifs = 1) :=
  ⟨⟨Or.inl rfl, by simp⟩,
   c3_disabled_all_spooled false true [dInSpoolOnly] (Or.inl rfl) (by simp)⟩

/-- C4 fails on the code: with the publisher ready and publish_enabled
read as false for two consecutive dequeued events after a single toggle
edge, the worker emits the publish-disabled status twice, once per
event, not once per toggle edge as the claim states. -/
theorem c4_counterexample_per_event :
    countNotif (.status "Publish disabled: event spooled")
      (publisherRun (pubInit true true) [dInDisabledA, dInDisabledB]).notifs = 2 := by
  simp +decide [publisherRun, processDelivery, pubInit, countNotif, dInDisabledA,
    dInDisabledB, spool_event]

/-- C4 amended: every event dequeued while publish_enabled reads false is
spooled without any publish call, and one publish-disabled status
notification is emitted per such event, level-triggered, rather than
once per toggle edge. -/
theorem c4_amended_level_triggered : ∀ (inputs : List DeliveryInput) (st : PubState),
    st.fallback_spool_only = false →
    (∀ i ∈ inputs, i.publishEnabled = false) →
    countOutcome .delivered (publisherRun st inputs).outcomes = 0 ∧
    countOutcome .spooled (publisherRun st inputs).outcomes = inputs.length ∧
    (publisherRun st inputs).attempts = 0 ∧
    countNotif (.status "Publish disabled: event spooled") (publisherRun st inputs).notifs =
      inputs.length := by
  intro inputs
  induction inputs with
  | nil =>
    intro st h1 h2
    simp [publisherRun, countOutcome, countNotif]
  | cons inp rest ih =>
    intro st h1 h2
    have hinp : inp.publishEnabled = false := h2 inp (by simp)
    have hstep : processDelivery st inp =
        { state := st, outcome := .spooled,
          notifs := [.status "Publish disabled: event spooled"], attempts := 0,
          logs := spool_event inp.writeOk ++ ["Publish disabled; spooled"] } := by
      simp [processDelivery, h1, hinp]
    obtain ⟨ih1, ih2, ih3, ih4⟩ := ih st h1 (fun i hi => h2 i (by simp [hi]))
    simp only [publisherRun, hstep]
    refine ⟨by simpa [countOutcome] using ih1, by simp [countOutcome, ih2]; omega,
      by simpa using ih3, ?_⟩
    rw [countNotif_append, ih4]
    simp [countNotif]
    omega

/-- Witness for the amended C4 at a concrete run of one disabled event. -/
theorem c4_amended_witness :
    ((pubInit true true).fallback_spool_only = false ∧
      (∀ i ∈ [dInDisabledA], i.publishEnabled = false)) ∧
    (countOutcome .delivered (publisherRun (pubInit true true) [dInDisabledA]).outcomes = 0 ∧
     countOutcome .spooled (publisherRun (pubInit true true) [dInDisabledA]).outcomes =
       [dInDisabledA].length ∧
     (publisherRun (pubInit true true) [dInDisabledA]).attempts = 0 ∧
     countNotif (.status "Publish disabled: event spooled")
       (publisherRun (pubInit true true) [dInDisabledA]).notifs = [dInDisabledA].length) :=
  ⟨⟨rfl, by simp [dInDisabledA]⟩,
   c4_amended_level_triggered [dInDisabledA] (pubInit true true) rfl
     (by simp [dInDisabledA])⟩

/-- C10 fails on the code in one respect: a failed spool append is
logged, but spool_event has no access to the output queue, so the
notifications emitted for the event are identical whether the append
succeeds or fails; the only status emitted is the publish-failure one,
and nothing surfaces the write failure to the notification channel. -/
theorem c10_counterexample_not_surfaced :
    (processDelivery (pubInit true true) dInFailedWrite).notifs =
      (processDelivery (pubInit true true) dInFailedWriteOkWrite).notifs ∧
    (processDelivery (pubInit true true) dInFailedWrite).notifs =
      [.status "Publish failed: event spooled"] ∧
    countLog "Failed writing spool file" (processDelivery (pubInit true true) dInFailedWrite).logs = 1 := by
  refine ⟨?_, ?_, ?_⟩ <;>
    simp +decide [processDelivery, pubInit, dInFailedWrite, dInFailedWriteOkWrite,
      spool_event, countLog]

/-- C10 amended: a failed spool append is logged exactly once for the
event (the write is not retried), the failure changes nothing in the
notifications emitted, no error propagates, and the delivery loop
proceeds to process every remaining item. -/
theorem c10_amended_logged_only (st : PubState) (inp : DeliveryInput)
    (rest : List DeliveryInput) :
    (inp.writeOk = false → (processDelivery st inp).outcome = .spooled →
      countLog "Failed writing spool file" (processDelivery st inp).logs = 1) ∧
    countLog "Failed writing spool file" (processDelivery st inp).logs ≤ 1 ∧
    (processDelivery st { inp with writeOk := false }).notifs =
      (processDelivery st { inp with writeOk := true }).notifs ∧
    (publisherRun st (inp :: rest)).outcomes.length = rest.length + 1 := by
  refine ⟨?_, ?_, ?_, ?_⟩
  · intro hw ho
    unfold processDelivery at ho ⊢
    split_ifs at ho ⊢ <;> simp_all [spool_event, countLog]
  · unfold processDelivery
    rcases hw : inp.writeOk <;> split_ifs <;> simp [spool_event, countLog]
  · unfold processDelivery
    split_ifs <;> rfl
  · simp [publisherRun, publisherRun_length]

/-- Witness for the amended C10: ready publisher, publish failure, spool
append failure, one further queued event. -/
theorem c10_amended_witness :
    (dInFailedWrite.writeOk = false ∧
      (processDelivery (pubInit true true) dInFailedWrite).outcome = .spooled) ∧
    (countLog "Failed writing spool file"
        (processDelivery (pubInit true true) dInFailedWrite).logs = 1 ∧
     countLog "Failed writing spool file"
        (processDelivery (pubInit true true) dInFailedWrite).logs ≤ 1 ∧
     (processDelivery (pubInit true true) { dInFailedWrite with writeOk := false }).notifs =
       (processDelivery (pubInit true true) { dInFailedWrite with writeOk := true }).notifs ∧
     (publisherRun (pubInit true true) (dInFailedWrite :: [dInSpoolOnly])).outcomes.length =
       [dInSpoolOnly].length + 1) :=
  have h := c10_amended_logged_only (pubInit true true) dInFailedWrite [dInSpoolOnly]
  ⟨⟨rfl, by simp +decide [processDelivery, pubInit, dInFailedWrite]⟩,
   ⟨h.1 rfl (by simp +decide [processDelivery, pubInit, dInFailedWrite]),
    h.2.1, h.2.2.1, h.2.2.2⟩⟩

theorem readTempLive_ok_conv : ∀ (reads : List RawRead) (r k : Nat) (c f : ℚ),
    readTempLive reads r = .ok c f k → f = c * (9 / 5) + 32 := by
  intro reads
  induction reads with
  | nil => intro r k c f h; simp [readTempLive] at h
  | cons a rest ih =>
    intro r k c f h
    rw [readTempLive] at h
    split at h
    · split at h
      · exact absurd h (by simp)
      · split at h
        · exact absurd h (by simp)
        · injection h with h1 h2 h3
          subst h1
          subst h2
          rfl
    · exact ih _ k c f h

theorem tempCycle_step_cases {osNt : Bool} {rom : Option String} {st : TempState}
    {inp : CycleInput} {st' : TempState} {ns : List Notification} {oe : Option Event}
    (h : tempCycle osNt rom st inp = .step st' ns oe) :
    (oe = none ∧ st'.sequence = st.sequence) ∨
    (∃ ev, oe = some ev ∧ ev.sequence = st.sequence + 1 ∧ st'.sequence = st.sequence + 1 ∧
      ev.temp_f = ev.temp_c * (9 / 5) + 32) := by
  simp only [tempCycle] at h
  split_ifs at h
  all_goals try (split at h)
  all_goals try (cases h)
  all_goals first
    | exact Or.inl ⟨rfl, rfl⟩
    | exact Or.inr ⟨_, rfl, rfl, rfl, rfl⟩
    | exact Or.inr ⟨_, rfl, rfl, rfl, readTempLive_ok_conv _ _ _ _ _ (by assumption)⟩

theorem tempRun_seq (osNt : Bool) (rom : Option String) :
    ∀ (inputs : List CycleInput) (st : TempState),
      (tempRun osNt rom st inputs).events.map Event.sequence =
        seqFrom (st.sequence + 1) (tempRun osNt rom st inputs).events.length := by
  intro inputs
  induction inputs with
  | nil => intro st; rfl
  | cons inp rest ih =>
    intro st
    rcases hc : tempCycle osNt rom st inp with ⟨st', ns, oe⟩ | ns
    · rcases tempCycle_step_cases hc with ⟨hoe, hseq⟩ | ⟨ev, hoe, hev, hseq, _⟩
      · subst hoe
        have := ih st'
        rw [hseq] at this
        simpa [tempRun, hc] using this
      · subst hoe
        have := ih st'
        rw [hseq] at this
        simp [tempRun, hc, hev, seqFrom, this]
    · simp [tempRun, hc, seqFrom]

/-- C2: over one run of the sampling worker from its initial state, the
sequence numbers carried by the enqueued events are exactly 1, 2, 3, ...
in enqueue order, strictly increasing with no gaps, and a cycle that
produces no event consumes no sequence number. -/
theorem c2_sequences_gapless (osNt : Bool) (rom : Option String) (inputs : List CycleInput) :
    (tempRun osNt rom TempState.init inputs).events.map Event.sequence =
      seqFrom 1 (tempRun osNt rom TempState.init inputs).events.length :=
  tempRun_seq osNt rom inputs TempState.init

/-- C5 fails on the code: on a platform without live sensing, two
consecutive cycles that both read the sim flag as false each emit a
force-sim notification, so a single persisting transition produces two
notifications, not exactly one. -/
theorem c5_counterexample_per_cycle :
    (((tempRun true none TempState.init
        [⟨false, 1, true, [], 0⟩, ⟨false, 2, true, [], 1⟩]).notifs.filter isForceSim).length = 2) := by
  simp [tempRun, tempCycle, TempState.init, isForceSim]

/-- C5 amended: on a platform without live sensing the sampling worker
emits one force-sim notification on every cycle that still reads the sim
flag as false, level-triggered until the shell resets the flag, and
every cycle operates in simulated mode, so every event it enqueues
carries the sim mode. -/
theorem c5_amended_level_triggered (rom : Option String) :
    ∀ (inputs : List CycleInput) (st : TempState),
      ((tempRun true rom st inputs).notifs.filter isForceSim).length =
        (inputs.filter (fun i => !i.simSelected)).length ∧
      (tempRun true rom st inputs).events.all (fun ev => ev.mode == "sim") = true := by
  intro inputs
  induction inputs with
  | nil => intro st; constructor <;> rfl
  | cons inp rest ih =>
    intro st
    rcases hs : inp.simSelected
    · have hcyc : tempCycle true rom st inp =
          .step { current_temp_c := max 10 (min 40 (st.current_temp_c + inp.delta)),
                  last_mode := some true, sequence := st.sequence + 1 }
            ([.forceSim "Live mode is not supported on Windows; switched to Simulated"] ++
              (if st.last_mode ≠ some true then [Notification.status "Simulated mode active"] else []) ++
              [.temp (max 10 (min 40 (st.current_temp_c + inp.delta)))
                (max 10 (min 40 (st.current_temp_c + inp.delta)) * (9 / 5) + 32)])
            (some (build_event_payload inp.msgId DEVICE_ID_DEFAULT "sim"
              (max 10 (min 40 (st.current_temp_c + inp.delta)))
              (max 10 (min 40 (st.current_temp_c + inp.delta)) * (9 / 5) + 32)
              (st.sequence + 1))) := by
        simp [tempCycle, hs]
      obtain ⟨ih1, ih2⟩ := ih ⟨max 10 (min 40 (st.current_temp_c + inp.delta)), some true, st.sequence + 1⟩
      constructor
      · simp [tempRun, hcyc, List.filter_append, apply_ite (List.filter isForceSim),
          isForceSim, hs, ih1]
      · simp only [tempRun, hcyc]
        simpa [build_event_payload] using ih2
    · have hcyc : tempCycle true rom st inp =
          .step { current_temp_c := max 10 (min 40 (st.current_temp_c + inp.delta)),
                  last_mode := some true, sequence := st.sequence + 1 }
            ((if st.last_mode ≠ some true then [Notification.status "Simulated mode active"] else []) ++
              [.temp (max 10 (min 40 (st.current_temp_c + inp.delta)))
                (max 10 (min 40 (st.current_temp_c + inp.delta)) * (9 / 5) + 32)])
            (some (build_event_payload inp.msgId DEVICE_ID_DEFAULT "sim"
              (max 10 (min 40 (st.current_temp_c + inp.delta)))
              (max 10 (min 40 (st.current_temp_c + inp.delta)) * (9 / 5) + 32)
              (st.sequence + 1))) := by
        simp [tempCycle, hs]
      obtain ⟨ih1, ih2⟩ := ih ⟨max 10 (min 40 (st.current_temp_c + inp.delta)), some true, st.sequence + 1⟩
      constructor
      · simp [tempRun, hcyc, List.filter_append, apply_ite (List.filter isForceSim),
          isForceSim, hs, ih1]
      · simp only [tempRun, hcyc]
        simpa [build_event_payload] using ih2

/-- C6: the simulated walk is seeded at 22 degrees centigrade, and for
any state and any delta within the configured variation bound, the
simulated cycle always succeeds, producing an event whose centigrade
value is the clamped walk value and lies within 10 to 40 degrees, the
same value reported on the temp notification. -/
theorem c6_sim_clamped :
    TempState.init.current_temp_c = 22 ∧
    ∀ (osNt : Bool) (rom : Option String) (st : TempState) (inp : CycleInput),
      inp.simSelected = true → -MAX_VARIATION_C ≤ inp.delta → inp.delta ≤ MAX_VARIATION_C →
      ∃ st' ns ev, tempCycle osNt rom st inp = .step st' ns (some ev) ∧
        10 ≤ ev.temp_c ∧ ev.temp_c ≤ 40 ∧ ev.temp_c = st'.current_temp_c ∧
        Notification.temp ev.temp_c ev.temp_f ∈ ns := by
  refine ⟨rfl, ?_⟩
  intro osNt rom st inp hs hd1 hd2
  have hcyc : tempCycle osNt rom st inp =
      .step { current_temp_c := max 10 (min 40 (st.current_temp_c + inp.delta)),
              last_mode := some true, sequence := st.sequence + 1 }
        ((if osNt && !inp.simSelected then
            [Notification.forceSim "Live mode is not supported on Windows; switched to Simulated"]
          else []) ++
          (if st.last_mode ≠ some true then [Notification.status "Simulated mode active"] else []) ++
          [.temp (max 10 (min 40 (st.current_temp_c + inp.delta)))
            (max 10 (min 40 (st.current_temp_c + inp.delta)) * (9 / 5) + 32)])
        (some (build_event_payload inp.msgId DEVICE_ID_DEFAULT "sim"
          (max 10 (min 40 (st.current_temp_c + inp.delta)))
          (max 10 (min 40 (st.current_temp_c + inp.delta)) * (9 / 5) + 32)
          (st.sequence + 1))) := by
    simp [tempCycle, hs]
  refine ⟨_, _, _, hcyc, le_max_left _ _, ?_, rfl, ?_⟩
  · exact max_le (by norm_num) (min_le_left _ _)
  · simp [build_event_payload]

/-- Witness for C6 at a concrete simulated cycle with delta 3. -/
theorem c6_witness :
    ((⟨true, 3, true, [], 7⟩ : CycleInput).simSelected = true ∧
      -MAX_VARIATION_C ≤ (3 : ℚ) ∧ (3 : ℚ) ≤ MAX_VARIATION_C) ∧
    (∃ st' ns ev, tempCycle false none TempState.init ⟨true, 3, true, [], 7⟩ =
        .step st' ns (some ev) ∧
      10 ≤ ev.temp_c ∧ ev.temp_c ≤ 40 ∧ ev.temp_c = st'.current_temp_c ∧
      Notification.temp ev.temp_c ev.temp_f ∈ ns) :=
  ⟨⟨rfl, by norm_num [MAX_VARIATION_C], by norm_num [MAX_VARIATION_C]⟩,
   c6_sim_clamped.2 false none TempState.init ⟨true, 3, true, [], 7⟩ rfl
     (by norm_num [MAX_VARIATION_C]) (by norm_num [MAX_VARIATION_C])⟩

/-- C7: every event the sampling worker produces, on the simulated path
and on the live path alike, reports a Fahrenheit value that agrees with
the specification formula temp_c times 9 over 5 plus 32 on its reported
centigrade value, exactly, hence within the stated tolerance of one
billionth. -/
theorem c7_fahrenheit_conversion {osNt : Bool} {rom : Option String} {st : TempState}
    {inp : CycleInput} {st' : TempState} {ns : List Notification} {ev : Event}
    (h : tempCycle osNt rom st inp = .step st' ns (some ev)) :
    |ev.temp_f - fahrenheit_spec ev.temp_c| ≤ 1 / 1000000000 := by
  rcases tempCycle_step_cases h with ⟨hoe, _⟩ | ⟨ev', hoe, _, _, hf⟩
  · simp at hoe
  · obtain rfl : ev = ev' := Option.some.inj hoe
    rw [hf, fahrenheit_spec]
    have h0 : ev.temp_c * (9 / 5) + 32 - (ev.temp_c * 9 / 5 + 32) = 0 := by ring
    rw [h0, abs_zero]
    norm_num

/-- Witness for C7 at a concrete simulated cycle producing 25 C / 77 F. -/
theorem c7_witness :
    (tempCycle false none TempState.init ⟨true, 3, true, [], 7⟩ =
      .step ⟨25, some true, 1⟩ [.status "Simulated mode active", .temp 25 77]
        (some ⟨7, DEVICE_ID_DEFAULT, "sim", 25, 77, 1, "TEMP_READING"⟩)) ∧
    |(Event.mk 7 DEVICE_ID_DEFAULT "sim" 25 77 1 "TEMP_READING").temp_f -
      fahrenheit_spec (Event.mk 7 DEVICE_ID_DEFAULT "sim" 25 77 1 "TEMP_READING").temp_c| ≤
      1 / 1000000000 :=
  have h : tempCycle false none TempState.init ⟨true, 3, true, [], 7⟩ =
      .step ⟨25, some true, 1⟩ [.status "Simulated mode active", .temp 25 77]
        (some ⟨7, DEVICE_ID_DEFAULT, "sim", 25, 77, 1, "TEMP_READING"⟩) := by
    have e1 : (22 : ℚ) + 3 = 25 := by norm_num
    have e2 : max (10 : ℚ) (min 40 25) = 25 := by norm_num
    have e3 : (25 : ℚ) * (9 / 5) + 32 = 77 := by norm_num
    simp only [tempCycle, TempState.init, BASE_TEMP_C, e1, e2, e3]
    simp [build_event_payload]
  ⟨h, c7_fahrenheit_conversion h⟩

/-- C8: with three consecutive register reads lacking the validity
marker and a fourth valid read carrying t=21500, the live sensor reader
returns centigrade 21.5 and Fahrenheit 70.7 after exactly 3 retries. -/
theorem c8_three_retries :
    readTempLive [neverValidRead, neverValidRead, neverValidRead, validSensorRead] 0 =
      .ok 21.5 70.7 3 := by
  simp +decide [readTempLive, validSensorRead, neverValidRead, afterTMarker, parseMilli,
    parseNatDigits, trimWs]
  norm_num

theorem neverValid_no_marker : containsYes neverValidRead.validLine = false := by decide

theorem stream_never_exits : ∀ (fuel i : Nat),
    readTempLiveStream (fun _ => neverValidRead) i fuel = none := by
  intro fuel
  induction fuel with
  | zero => intro i; simp [readTempLiveStream, neverValid_no_marker]
  | succ n ih =>
    intro i
    simp only [readTempLiveStream, neverValid_no_marker, Bool.false_eq_true, if_false]
    exact ih (i + 1)

/-- C9 fails on the code: the retry loop of read_temp_live consults no
stop signal (the function has no access to the running event), so on a
register that never presents the validity marker the loop is still
retrying after 300 polling steps, stop signal notwithstanding. -/
theorem c9_counterexample_still_retrying :
    readTempLiveStream (fun _ => neverValidRead) 0 300 = none :=
  stream_never_exits 300 0

/-- C9 amended: when the validity marker is absent the live read retries
after the fixed backoff and repeats until a valid line appears; the loop
is not bounded by cancellation: it checks no stop signal, and on a
register that never presents the marker it is still retrying after every
finite number of steps, so a pending stop does not terminate it. -/
theorem c9_amended_unbounded (reads : List RawRead) (r : Nat) :
    readTempLive (neverValidRead :: reads) r = readTempLive reads (r + 1) ∧
    ∀ fuel i, readTempLiveStream (fun _ => neverValidRead) i fuel = none := by
  constructor
  · rw [readTempLive]
    simp [neverValid_no_marker]
  · intro fuel i
    exact stream_never_exits fuel i

end EventMonitor
